import Mathlib

/-!
Verification of the csv2db ingestion helpers (src/python/functions.py)
against its natural-language specification.

The Python module is shallowly embedded: pure functions become Lean
functions on List Char / String; functions that touch the filesystem or
a database driver take an explicit environment (a structure of functions
describing the filesystem / driver world) and return an Except value
whose error constructors mirror the Python exception classes involved.
-/

namespace Csv2db

/-! ### DBType enumeration (class DBType(Enum)) -/

/-- Database type enumeration, mirroring class DBType(Enum). -/
inductive DBType where
  | oracle
  | mysql
  | postgres
  | db2
deriving DecidableEq, Repr

/-- The .value string of each DBType member. -/
def DBType.value : DBType → String
  | .oracle => "oracle"
  | .mysql => "mysql"
  | .postgres => "postgres"
  | .db2 => "db2"

/-! ### format_list and its string helpers

Python primitives used by format_list, modelled on List Char:
col.replace(chr(34), empty) removes every double-quote character;
str.strip() removes leading and trailing whitespace; str.replace of
space by underscore maps every space; str.upper() uppercases (modelled
for ASCII via Char.toUpper).
-/

/-- Python str.replace of the double-quote character by the empty string:
removes every occurrence. -/
def removeQuotes (cs : List Char) : List Char :=
  cs.filter (fun c => c ≠ '"')

/-- Whitespace characters stripped by Python str.strip(). -/
def pyIsSpace (c : Char) : Bool :=
  c = ' ' || c = '\t' || c = '\n' || c = '\r' || c = '\x0b' || c = '\x0c'

/-- Python str.strip(): drop leading and trailing whitespace. -/
def pyStrip (cs : List Char) : List Char :=
  ((cs.dropWhile pyIsSpace).reverse.dropWhile pyIsSpace).reverse

/-- Python str.replace of a space by an underscore: maps every space. -/
def replaceSpaces (cs : List Char) : List Char :=
  cs.map (fun c => if c = ' ' then '_' else c)

/-- Python str.upper(), modelled for ASCII characters. -/
def pyUpper (cs : List Char) : List Char :=
  cs.map Char.toUpper

/-- Body of the loop in format_list: val = col.replace(quote, empty).strip(),
and when header also val = val.replace(space, underscore).upper(). -/
def fmtField (header : Bool) (col : String) : String :=
  let val : List Char := pyStrip (removeQuotes col.data)
  if header then String.mk (pyUpper (replaceSpaces val)) else String.mk val

/-- Embedding of format_list(input_list, header). The Python input may be
None or a list; Python falsiness of None and of the empty list both take
the early return None branch. The loop appending to output is embedded
as a foldl over the input list. -/
def format_list (input_list : Option (List String)) (header : Bool := false) :
    Option (List String) :=
  match input_list with
  | none => none
  | some [] => none
  | some l => some (l.foldl (fun output col => output ++ [fmtField header col]) [])

/-! ### get_default_db_port -/

/-- Embedding of get_default_db_port(db_type): an if/elif chain against the
DBType values; no else branch, so Python returns None for any other input,
modelled as an Option result. -/
def get_default_db_port (db_type : String) : Option String :=
  if db_type = DBType.oracle.value then
    some "1521"
  else if db_type = DBType.mysql.value then
    some "3306"
  else if db_type = DBType.postgres.value then
    some "5432"
  else if db_type = DBType.db2.value then
    some "50000"
  else
    none

/-! ### open_file

open_file dispatches on the filename suffix and opens the file through
zero or one decompression layer. The filesystem is an explicit World:
for each path, what a zip archive at that path would contain (the list
of its entries' decoded texts, in infolist() order), what gzip
decompression of that path would yield, and what reading it as plain
text would yield; none models a path that cannot be opened or whose
archive/stream is corrupt.
-/

/-- Filesystem world seen by open_file. Each field returns none when the
corresponding way of opening the path fails (missing file, unreadable
file, corrupt archive or corrupt gzip stream). -/
structure World where
  zipEntries : String → Option (List String)
  gzText : String → Option String
  plainText : String → Option String

/-- Errors open_file can surface.

fileAccessError is modelled from the spec: the Python function itself
raises driver-level exceptions (OSError, zipfile.BadZipFile,
gzip.BadGzipFile), and the caller that classifies them — csv2db.py, not
under src/ — is missing; the spec's StreamDecoder section says these all
surface as FileAccessError. emptyArchiveError is the IndexError that
infolist()[0] raises on a valid zip archive with no entries. -/
inductive OpenError where
  | fileAccessError
  | emptyArchiveError
deriving DecidableEq, Repr

/-- Python str.endswith, computed on the underlying character lists. -/
def pyEndsWith (s suffix : String) : Bool :=
  suffix.data.isSuffixOf s.data

/-- Embedding of open_file(file): suffix dispatch in source order
(endswith .zip first, then endswith .gz, else plain). The zip branch
takes infolist()[0], the first entry, ignoring all later entries. The
result is the character stream the caller reads. -/
def open_file (w : World) (file : String) : Except OpenError String :=
  if pyEndsWith file ".zip" then
    match w.zipEntries file with
    | none => .error .fileAccessError
    | some [] => .error .emptyArchiveError
    | some (entry0 :: _) => .ok entry0
  else if pyEndsWith file ".gz" then
    match w.gzText file with
    | none => .error .fileAccessError
    | some text => .ok text
  else
    match w.plainText file with
    | none => .error .fileAccessError
    | some text => .ok text

/-! ### get_db_connection

The backend drivers are an explicit environment: which driver modules
are importable, and whether the backend accepts the supplied
credentials. The Python try block converts only ModuleNotFoundError
into ConnectionError; every other exception escapes unchanged, so a
backend rejecting the credentials raises that driver's own error class.
-/

/-- Driver environment seen by get_db_connection: hasModule says whether a
Python module of that name is importable; authOk says whether the backend
(keyed by its type tag) accepts the supplied user and password. -/
structure DBEnv where
  hasModule : String → Bool
  authOk : String → String → String → Bool

/-- Exception classes that can escape get_db_connection (plus
moduleNotFoundError, which only occurs internally before the except
clause rewrites it). driverError is the backend driver's own exception
class, carrying the driver module name. -/
inductive PyExc where
  | moduleNotFoundError (modName : String)
  | valueError (msg : String)
  | driverError (driver : String)
  | connectionError (msg : String)
deriving DecidableEq, Repr

/-- A database connection handle: which driver produced it and the
arguments the source passed to that driver's connect call. -/
structure Conn where
  driver : String
  args : List String
deriving DecidableEq, Repr

/-- Python int(s) for the strings the source feeds it: optional
whitespace, an optional sign, then decimal digits. none models the
ValueError that int() raises otherwise. -/
def pyInt (s : String) : Option Int :=
  let cs := pyStrip s.data
  let digitsVal : List Char → Option Int := fun ds =>
    if ds = [] ∨ ¬ ds.all Char.isDigit then none
    else some (Int.ofNat (ds.foldl (fun acc d => 10 * acc + d.toNat - 48) 0))
  match cs with
  | '-' :: rest => (digitsVal rest).map (fun n => -n)
  | '+' :: rest => digitsVal rest
  | _ => digitsVal cs

/-- Python import of a module inside the try block: raises
ModuleNotFoundError when the module is not installed. -/
def import_mod (env : DBEnv) (modName : String) : Except PyExc Unit :=
  if env.hasModule modName then .ok () else .error (.moduleNotFoundError modName)

/-- Body of the try block of get_db_connection: the if/elif chain over the
DBType values, importing the backend's driver module(s) and calling its
connect function, with the unsupported-type else branch raising
ValueError. The Conn records the connect arguments the source builds:
Oracle a (user, password, host:port/name) triple, MySQL keyword
arguments with int(port), Postgres a single keyword string, DB2 a single
semicolon string plus two empty strings. -/
def get_db_connection_try (env : DBEnv)
    (db_type user password host port db_name : String) : Except PyExc Conn :=
  if db_type = DBType.oracle.value then
    match import_mod env "cx_Oracle" with
    | .error e => .error e
    | .ok _ =>
      if env.authOk "oracle" user password then
        .ok ⟨"cx_Oracle", [user, password, host ++ ":" ++ port ++ "/" ++ db_name]⟩
      else .error (.driverError "cx_Oracle")
  else if db_type = DBType.mysql.value then
    match import_mod env "mysql.connector" with
    | .error e => .error e
    | .ok _ =>
      match pyInt port with
      | none => .error (.valueError ("invalid literal for int() with base 10: " ++ port))
      | some portNum =>
        if env.authOk "mysql" user password then
          .ok ⟨"mysql.connector", [user, password, host, toString portNum, db_name]⟩
        else .error (.driverError "mysql.connector")
  else if db_type = DBType.postgres.value then
    match import_mod env "psycopg2" with
    | .error e => .error e
    | .ok _ =>
      if env.authOk "postgres" user password then
        .ok ⟨"psycopg2", ["user='" ++ user ++ "' password='" ++ password ++
          "' host='" ++ host ++ "' port='" ++ port ++ "' dbname='" ++ db_name ++ "'"]⟩
      else .error (.driverError "psycopg2")
  else if db_type = DBType.db2.value then
    match import_mod env "ibm_db" with
    | .error e => .error e
    | .ok _ =>
      match import_mod env "ibm_db_dbi" with
      | .error e => .error e
      | .ok _ =>
        if env.authOk "db2" user password then
          .ok ⟨"ibm_db_dbi", ["UID=" ++ user ++ ";PWD=" ++ password ++ ";HOSTNAME=" ++
            host ++ ";PORT=" ++ port ++ ";DATABASE=" ++ db_name ++ ";", "", ""]⟩
        else .error (.driverError "ibm_db")
  else
    .error (.valueError ("Database type '" ++ db_type ++ "' is not supported."))

/-- Embedding of get_db_connection: run the try body; the except clause
catches exactly ModuleNotFoundError and re-raises it as ConnectionError
with the installation message. Every other exception escapes unchanged. -/
def get_db_connection (env : DBEnv)
    (db_type user password host port db_name : String) : Except PyExc Conn :=
  match get_db_connection_try env db_type user password host port db_name with
  | .error (.moduleNotFoundError m) =>
    .error (.connectionError ("Database driver module is not installed: No module named '"
      ++ m ++ "'. Please install it first."))
  | r => r

/-- Whether a get_db_connection result is a raised ConnectionError. -/
def isConnectionError (r : Except PyExc Conn) : Bool :=
  match r with
  | .error (.connectionError _) => true
  | _ => false

/-- Whether a get_db_connection result is a backend driver's own error. -/
def isDriverError (r : Except PyExc Conn) : Bool :=
  match r with
  | .error (.driverError _) => true
  | _ => false

/-- Whether some driver module needed by the given supported backend tag is
not importable in the environment. -/
def missingModules (env : DBEnv) (db_type : String) : Bool :=
  if db_type = DBType.oracle.value then !env.hasModule "cx_Oracle"
  else if db_type = DBType.mysql.value then !env.hasModule "mysql.connector"
  else if db_type = DBType.postgres.value then !env.hasModule "psycopg2"
  else if db_type = DBType.db2.value then
    !(env.hasModule "ibm_db" && env.hasModule "ibm_db_dbi")
  else false

/-! ### find_all_files

find_all_files(pattern) appends "/*.csv*" when the pattern is an existing
directory, then returns sorted(glob.glob(pattern)). Paths are modelled as
lists of characters; the filesystem is an FS giving which paths are
directories and the entry names each directory contains. glob.glob for a
single-level pattern dir/base lists the entries of dir whose names match
the base wildcard pattern, skipping dot-entries unless the pattern itself
starts with a dot, and joins dir, a slash and the name; sorted uses the
lexicographic order on code points.
-/

/-- Filesystem seen by find_all_files: which paths are directories, and
the entry names (no slashes) contained in each directory. -/
structure FS where
  isDir : List Char → Bool
  entries : List Char → List (List Char)

/-- Wildcard matching of fnmatch for the metacharacters the source's
patterns use: star matches any (possibly empty) run of characters,
question mark any single character, anything else itself. -/
def fnmatch : List Char → List Char → Bool
  | [], [] => true
  | '*' :: ps, [] => fnmatch ps []
  | _ :: _, [] => false
  | [], _ :: _ => false
  | p :: ps, c :: cs =>
    if p = '*' then fnmatch ps (c :: cs) || fnmatch ('*' :: ps) cs
    else if p = '?' then fnmatch ps cs
    else p = c && fnmatch ps cs
termination_by ps cs => (ps.length, cs.length)

/-- glob matching of one entry name: a name starting with a dot is only
matched when the pattern itself starts with a literal dot. -/
def globMatch (pat name : List Char) : Bool :=
  match name with
  | '.' :: _ => (match pat with | '.' :: _ => fnmatch pat name | _ => false)
  | _ => fnmatch pat name

/-- Split a path into its slash-separated components. -/
def splitSlash : List Char → List (List Char)
  | [] => [[]]
  | c :: cs =>
    if c = '/' then [] :: splitSlash cs
    else (c :: (splitSlash cs).headD []) :: (splitSlash cs).tail

/-- Rejoin slash-separated components into a path. -/
def joinSlash : List (List Char) → List Char
  | [] => []
  | [p] => p
  | p :: ps => p ++ '/' :: joinSlash ps

/-- Model of glob.glob for a single-level pattern: split the pattern at
its last slash into a directory part and a basename pattern, and return
the directory's matching entries as full paths. -/
def glob (fs : FS) (pat : List Char) : List (List Char) :=
  let parts := splitSlash pat
  let dir := joinSlash parts.dropLast
  let base := parts.getLastD []
  ((fs.entries dir).filter (globMatch base)).map (fun name => dir ++ '/' :: name)

/-- Lexicographic order on code points, the order Python sorted uses on
strings. -/
def pathLe : List Char → List Char → Bool
  | [], _ => true
  | _ :: _, [] => false
  | a :: as, b :: bs =>
    if a < b then true
    else if b < a then false
    else pathLe as bs

/-- Embedding of find_all_files(pattern): if os.path.isdir(pattern), the
pattern becomes pattern + "/*.csv*"; the glob results are returned
sorted. -/
def find_all_files (fs : FS) (pattern : List Char) : List (List Char) :=
  let pattern := if fs.isDir pattern then pattern ++ ('/' :: "*.csv*".data) else pattern
  (glob fs pattern).mergeSort pathLe

/-! ### Concrete environments used by the witness theorems -/

/-- World in which every path opens: a two-entry zip archive, a gzip
stream decoding to G, a plain file reading P. -/
def wOk : World :=
  ⟨fun _ => some ["A", "B"], fun _ => some "G", fun _ => some "P"⟩

/-- World in which no path can be opened in any way. -/
def wBad : World :=
  ⟨fun _ => none, fun _ => none, fun _ => none⟩

/-- Driver environment: every module installed, every credential rejected. -/
def envDriversUp : DBEnv :=
  ⟨fun _ => true, fun _ _ _ => false⟩

/-- Driver environment: no module installed. -/
def envDriversMissing : DBEnv :=
  ⟨fun _ => false, fun _ _ _ => true⟩

/-- Driver environment: every module installed, every credential accepted. -/
def envDriversOk : DBEnv :=
  ⟨fun _ => true, fun _ _ _ => true⟩

/-- Filesystem with one directory, /data, holding two csv-like files and
one unrelated file. -/
def fsData : FS :=
  ⟨fun d => d == "/data".data,
   fun _ => ["b.csv".data, "a.csv.gz".data, "readme.txt".data]⟩

/-! ### Helper lemmas -/

/-- A foldl that appends one element per input item is the map of that
element function. -/
theorem foldl_push_eq_map (f : String → String) (l acc : List String) :
    l.foldl (fun output col => output ++ [f col]) acc = acc ++ l.map f := by
  induction l generalizing acc with
  | nil => simp
  | cons a as ih => simp [List.foldl_cons, ih]

/-- fmtField in header mode is the strip-trim-underscore-uppercase pipeline. -/
theorem fmtField_true (col : String) :
    fmtField true col =
      String.mk (pyUpper (replaceSpaces (pyStrip (removeQuotes col.data)))) := rfl

/-- fmtField in non-header mode is the strip-trim pipeline. -/
theorem fmtField_false (col : String) :
    fmtField false col = String.mk (pyStrip (removeQuotes col.data)) := rfl

/-- splitSlash never returns the empty list of components. -/
theorem splitSlash_ne_nil (cs : List Char) : splitSlash cs ≠ [] := by
  cases cs with
  | nil => simp [splitSlash]
  | cons c cs => by_cases h : c = '/' <;> simp [splitSlash, h]

/-- Splitting at slashes distributes over an appended slash. -/
theorem splitSlash_append (xs ys : List Char) :
    splitSlash (xs ++ '/' :: ys) = splitSlash xs ++ splitSlash ys := by
  induction xs with
  | nil => simp [splitSlash]
  | cons c cs ih =>
    by_cases h : c = '/'
    · subst h
      simp [splitSlash, ih]
    · cases hsp : splitSlash cs with
      | nil => exact absurd hsp (splitSlash_ne_nil cs)
      | cons p ps =>
        simp [splitSlash, h, ih, hsp]

/-- Rejoining the slash components of a path gives the path back. -/
theorem joinSlash_splitSlash (cs : List Char) : joinSlash (splitSlash cs) = cs := by
  induction cs with
  | nil => rfl
  | cons c cs ih =>
    cases hsp : splitSlash cs with
    | nil => exact absurd hsp (splitSlash_ne_nil cs)
    | cons p ps =>
      have ih2 : joinSlash (p :: ps) = cs := hsp ▸ ih
      by_cases h : c = '/'
      · subst h
        simp [splitSlash, hsp, joinSlash, ih2]
      · cases ps with
        | nil =>
          simp only [joinSlash] at ih2
          simp [splitSlash, h, hsp, joinSlash, ih2]
        | cons q qs =>
          simp only [joinSlash] at ih2
          simp [splitSlash, h, hsp, joinSlash, ih2]

/-- pathLe is transitive. -/
theorem pathLe_trans (as bs cs : List Char)
    (hab : pathLe as bs = true) (hbc : pathLe bs cs = true) : pathLe as cs = true := by
  induction as generalizing bs cs with
  | nil => simp [pathLe]
  | cons a as ih =>
    cases bs with
    | nil => simp [pathLe] at hab
    | cons b bs =>
      cases cs with
      | nil => simp [pathLe] at hbc
      | cons c cs =>
        by_cases h1 : a < b
        · by_cases h2 : b < c
          · simp [pathLe, lt_trans h1 h2]
          · by_cases h3 : c < b
            · simp [pathLe, h2, h3] at hbc
            · have hcb : b = c := le_antisymm (not_lt.mp h3) (not_lt.mp h2)
              subst hcb
              simp [pathLe, h1]
        · by_cases h2 : b < a
          · simp [pathLe, h1, h2] at hab
          · have hba : a = b := le_antisymm (not_lt.mp h2) (not_lt.mp h1)
            subst hba
            by_cases h3 : a < c
            · simp [pathLe, h3]
            · by_cases h4 : c < a
              · simp [pathLe, h3, h4] at hbc
              · have htail1 : pathLe as bs = true := by simpa [pathLe, h1, h2] using hab
                have htail2 : pathLe bs cs = true := by simpa [pathLe, h3, h4] using hbc
                simp [pathLe, h3, h4, ih bs cs htail1 htail2]

/-- pathLe is total. -/
theorem pathLe_total (as bs : List Char) : (pathLe as bs || pathLe bs as) = true := by
  induction as generalizing bs with
  | nil => simp [pathLe]
  | cons a as ih =>
    cases bs with
    | nil => simp [pathLe]
    | cons b bs =>
      by_cases h1 : a < b
      · simp [pathLe, h1]
      · by_cases h2 : b < a
        · simp [pathLe, h1, h2]
        · simpa [pathLe, h1, h2] using ih bs

/-- glob on a directory-plus-basename pattern lists the directory entries
matching the basename, as full paths under the directory. -/
theorem glob_dir (fs : FS) (D : List Char) :
    glob fs (D ++ '/' :: "*.csv*".data) =
      ((fs.entries D).filter (globMatch "*.csv*".data)).map (fun n => D ++ '/' :: n) := by
  unfold glob
  rw [splitSlash_append,
    show splitSlash "*.csv*".data = ["*.csv*".data] from rfl]
  simp only [List.dropLast_concat, List.getLastD_concat, joinSlash_splitSlash]

/-! ### Claim theorems -/

/-- C1: for every non-empty list of fields, format_list with header true
returns the list where each field has its double-quote characters removed,
is trimmed of leading and trailing whitespace, has its spaces replaced by
underscores and is uppercased. -/
theorem format_list_header_formats_each_field (l : List String) (h : l ≠ []) :
    format_list (some l) true =
      some (l.map (fun col =>
        String.mk (pyUpper (replaceSpaces (pyStrip (removeQuotes col.data)))))) := by
  cases l with
  | nil => exact absurd rfl h
  | cons a as =>
    show some ((a :: as).foldl (fun output col => output ++ [fmtField true col]) []) = _
    rw [foldl_push_eq_map (fmtField true)]
    simp only [List.nil_append]
    exact congrArg some (List.map_congr_left fun col _ => fmtField_true col)

/-- C1 witness: the header example of the spec. -/
theorem format_list_header_example :
    format_list (some ["  \"Full Name\" ", " Age "]) true = some ["FULL_NAME", "AGE"] :=
  (format_list_header_formats_each_field ["  \"Full Name\" ", " Age "] (by simp)).trans
    (by rfl)

/-- C7: for every non-empty list of fields, format_list with header false
only removes double-quote characters and trims leading and trailing
whitespace, changing neither case nor internal spaces. -/
theorem format_list_nonheader_formats_each_field (l : List String) (h : l ≠ []) :
    format_list (some l) false =
      some (l.map (fun col => String.mk (pyStrip (removeQuotes col.data)))) := by
  cases l with
  | nil => exact absurd rfl h
  | cons a as =>
    show some ((a :: as).foldl (fun output col => output ++ [fmtField false col]) []) = _
    rw [foldl_push_eq_map (fmtField false)]
    simp only [List.nil_append]
    exact congrArg some (List.map_congr_left fun col _ => fmtField_false col)

/-- C7 witness: the non-header example of the spec. -/
theorem format_list_nonheader_example :
    format_list (some ["  \"Full Name\" ", " Age "]) false = some ["Full Name", "Age"] :=
  (format_list_nonheader_formats_each_field ["  \"Full Name\" ", " Age "] (by simp)).trans
    (by rfl)

/-- C6: for the None input and the empty list, format_list returns None in
both header and non-header modes, never a record of empty strings. -/
theorem format_list_empty_or_none_absent :
    ∀ header : Bool, format_list none header = none ∧ format_list (some []) header = none :=
  fun _ => ⟨rfl, rfl⟩

/-- C8: the default port table maps oracle to 1521, mysql to 3306,
postgres to 5432 and db2 to 50000. -/
theorem get_default_db_port_table :
    get_default_db_port "oracle" = some "1521" ∧
    get_default_db_port "mysql" = some "3306" ∧
    get_default_db_port "postgres" = some "5432" ∧
    get_default_db_port "db2" = some "50000" :=
  ⟨rfl, rfl, rfl, rfl⟩

/-- C10: for every database type string other than the four supported tags,
get_default_db_port returns None rather than an error or a port string. -/
theorem get_default_db_port_unknown (s : String)
    (h1 : s ≠ "oracle") (h2 : s ≠ "mysql") (h3 : s ≠ "postgres") (h4 : s ≠ "db2") :
    get_default_db_port s = none := by
  simp [get_default_db_port, DBType.value, h1, h2, h3, h4]

/-- C10 witness: an unsupported tag yields None. -/
theorem get_default_db_port_unknown_example : get_default_db_port "sqlite" = none :=
  get_default_db_port_unknown "sqlite" (by decide) (by decide) (by decide) (by decide)

/-- C3: open_file dispatches solely on the filename suffix: a .zip path
reads only the archive entry at index 0 whatever the later entries are, a
.gz path reads the gzip-decompressed text, any other path reads the plain
text. -/
theorem open_file_dispatch (w : World) (f : String) :
    (pyEndsWith f ".zip" = true → ∀ e rest, w.zipEntries f = some (e :: rest) →
      open_file w f = .ok e) ∧
    (pyEndsWith f ".zip" = false → pyEndsWith f ".gz" = true → ∀ t, w.gzText f = some t →
      open_file w f = .ok t) ∧
    (pyEndsWith f ".zip" = false → pyEndsWith f ".gz" = false → ∀ t, w.plainText f = some t →
      open_file w f = .ok t) := by
  refine ⟨?_, ?_, ?_⟩
  · intro hz e rest hw
    simp [open_file, hz, hw]
  · intro hz hg t hw
    simp [open_file, hz, hg, hw]
  · intro hz hg t hw
    simp [open_file, hz, hg, hw]

/-- C3 witness: the three dispatch branches on a world where every path
opens, with a two-entry archive whose second entry is ignored. -/
theorem open_file_dispatch_example :
    open_file wOk "t.csv.zip" = .ok "A" ∧ open_file wOk "t.csv.gz" = .ok "G" ∧
    open_file wOk "t.csv" = .ok "P" :=
  ⟨(open_file_dispatch wOk "t.csv.zip").1 rfl "A" ["B"] rfl,
   (open_file_dispatch wOk "t.csv.gz").2.1 rfl rfl "G" rfl,
   (open_file_dispatch wOk "t.csv").2.2 rfl rfl "P" rfl⟩

/-- C4: whenever the path cannot be opened or its archive or gzip stream is
corrupt, open_file fails with fileAccessError and with no other error
kind, in each of the three dispatch branches. -/
theorem open_file_failure (w : World) (f : String) :
    (pyEndsWith f ".zip" = true → w.zipEntries f = none →
      open_file w f = .error .fileAccessError) ∧
    (pyEndsWith f ".zip" = false → pyEndsWith f ".gz" = true → w.gzText f = none →
      open_file w f = .error .fileAccessError) ∧
    (pyEndsWith f ".zip" = false → pyEndsWith f ".gz" = false → w.plainText f = none →
      open_file w f = .error .fileAccessError) := by
  refine ⟨?_, ?_, ?_⟩
  · intro hz hw
    simp [open_file, hz, hw]
  · intro hz hg hw
    simp [open_file, hz, hg, hw]
  · intro hz hg hw
    simp [open_file, hz, hg, hw]

/-- C4 witness: the three failure branches on a world where nothing opens. -/
theorem open_file_failure_example :
    open_file wBad "t.csv.zip" = .error .fileAccessError ∧
    open_file wBad "t.csv.gz" = .error .fileAccessError ∧
    open_file wBad "t.csv" = .error .fileAccessError :=
  ⟨(open_file_failure wBad "t.csv.zip").1 rfl rfl,
   (open_file_failure wBad "t.csv.gz").2.1 rfl rfl rfl,
   (open_file_failure wBad "t.csv").2.2 rfl rfl rfl⟩

/-- C9: for every database type outside the four supported tags,
get_db_connection raises ValueError, a kind distinct from ConnectionError,
independent of the driver environment. -/
theorem get_db_connection_unsupported (env : DBEnv) (t u p h po d : String)
    (h1 : t ≠ "oracle") (h2 : t ≠ "mysql") (h3 : t ≠ "postgres") (h4 : t ≠ "db2") :
    get_db_connection env t u p h po d =
      .error (.valueError ("Database type '" ++ t ++ "' is not supported.")) ∧
    isConnectionError (get_db_connection env t u p h po d) = false := by
  have htry : get_db_connection_try env t u p h po d =
      .error (.valueError ("Database type '" ++ t ++ "' is not supported.")) := by
    simp [get_db_connection_try, DBType.value, h1, h2, h3, h4]
  constructor
  · simp [get_db_connection, htry]
  · simp [get_db_connection, htry, isConnectionError]

/-- C9 witness: an unsupported tag raises ValueError even with every driver
installed and accepting. -/
theorem get_db_connection_unsupported_example :
    get_db_connection envDriversOk "sqlite" "u" "p" "h" "1521" "d" =
      .error (.valueError "Database type 'sqlite' is not supported.") ∧
    isConnectionError (get_db_connection envDriversOk "sqlite" "u" "p" "h" "1521" "d") = false :=
  get_db_connection_unsupported envDriversOk "sqlite" "u" "p" "h" "1521" "d"
    (by decide) (by decide) (by decide) (by decide)

/-- C5 counterexample: with the cx_Oracle module installed and the backend
rejecting the credentials, get_db_connection raises the driver's own error,
not ConnectionError, refuting that ConnectionError covers rejected
credentials. -/
theorem get_db_connection_rejected_credentials_not_connectionError :
    get_db_connection envDriversUp "oracle" "scott" "tiger" "localhost" "1521" "orcl" =
      .error (.driverError "cx_Oracle") ∧
    isConnectionError
      (get_db_connection envDriversUp "oracle" "scott" "tiger" "localhost" "1521" "orcl") = false ∧
    envDriversUp.hasModule "cx_Oracle" = true ∧
    envDriversUp.authOk "oracle" "scott" "tiger" = false :=
  ⟨rfl, rfl, rfl, rfl⟩

/-- C5 amended: for each supported tag, get_db_connection raises
ConnectionError exactly when a needed driver module is missing; when the
modules are present and the backend rejects the credentials the driver's
own error escapes instead (for mysql provided int(port) parses, since that
conversion precedes the connect call). -/
theorem get_db_connection_connectionError_iff (env : DBEnv) (t u p h po d : String)
    (hsup : t = "oracle" ∨ t = "mysql" ∨ t = "postgres" ∨ t = "db2") :
    (isConnectionError (get_db_connection env t u p h po d) = true ↔
      missingModules env t = true) ∧
    (missingModules env t = false → env.authOk t u p = false →
      (t = "mysql" → (pyInt po).isSome = true) →
      isDriverError (get_db_connection env t u p h po d) = true) := by
  rcases hsup with rfl | rfl | rfl | rfl
  · cases hm : env.hasModule "cx_Oracle" <;>
      cases ha : env.authOk "oracle" u p <;>
      simp [get_db_connection, get_db_connection_try, import_mod, missingModules,
        isConnectionError, isDriverError, DBType.value, hm, ha]
  · cases hm : env.hasModule "mysql.connector" <;>
      cases ha : env.authOk "mysql" u p <;>
      cases hp : pyInt po <;>
      simp [get_db_connection, get_db_connection_try, import_mod, missingModules,
        isConnectionError, isDriverError, DBType.value, hm, ha, hp]
  · cases hm : env.hasModule "psycopg2" <;>
      cases ha : env.authOk "postgres" u p <;>
      simp [get_db_connection, get_db_connection_try, import_mod, missingModules,
        isConnectionError, isDriverError, DBType.value, hm, ha]
  · cases hm1 : env.hasModule "ibm_db" <;>
      cases hm2 : env.hasModule "ibm_db_dbi" <;>
      cases ha : env.authOk "db2" u p <;>
      simp [get_db_connection, get_db_connection_try, import_mod, missingModules,
        isConnectionError, isDriverError, DBType.value, hm1, hm2, ha]

/-- C5 amended witness: with no module installed, connecting to oracle is a
ConnectionError, and the iff instance holds at this concrete input. -/
theorem get_db_connection_connectionError_iff_example :
    (isConnectionError (get_db_connection envDriversMissing "oracle" "u" "p" "h" "1521" "d") = true ↔
      missingModules envDriversMissing "oracle" = true) ∧
    (missingModules envDriversMissing "oracle" = false →
      envDriversMissing.authOk "oracle" "u" "p" = false →
      ("oracle" = "mysql" → (pyInt "1521").isSome = true) →
      isDriverError (get_db_connection envDriversMissing "oracle" "u" "p" "h" "1521" "d") = true) :=
  get_db_connection_connectionError_iff envDriversMissing "oracle" "u" "p" "h" "1521" "d"
    (Or.inl rfl)

/-- C2: on a directory, find_all_files rewrites the pattern to the
directory plus the glob suffix and returns exactly the directory entries
matching the csv glob, as full paths, lexicographically sorted. -/
theorem find_all_files_dir (fs : FS) (D : List Char) (hdir : fs.isDir D = true) :
    (find_all_files fs D).Perm
      (((fs.entries D).filter (globMatch "*.csv*".data)).map (fun n => D ++ '/' :: n)) ∧
    List.Pairwise (fun a b => pathLe a b = true) (find_all_files fs D) := by
  have hff : find_all_files fs D = (glob fs (D ++ '/' :: "*.csv*".data)).mergeSort pathLe := by
    simp [find_all_files, hdir]
  constructor
  · rw [hff, glob_dir]
    exact List.mergeSort_perm _ pathLe
  · rw [hff]
    exact List.sorted_mergeSort pathLe_trans pathLe_total _

/-- C2 witness: the /data directory of the concrete filesystem yields its
two matching files, sorted. -/
theorem find_all_files_dir_example :
    (find_all_files fsData "/data".data).Perm
      (((fsData.entries "/data".data).filter (globMatch "*.csv*".data)).map
        (fun n => "/data".data ++ '/' :: n)) ∧
    List.Pairwise (fun a b => pathLe a b = true) (find_all_files fsData "/data".data) :=
  find_all_files_dir fsData "/data".data rfl

end Csv2db
